import Mathlib

/- Shallow embedding of the tg-summary repository (bot.py, run_gemma.py,
script.py): the per-conversation message store, the summary-request
orchestrator, the Gemma backend adapter's fault handling, and the paginated
history importer.  External effects (Telegram sends, the remote fetch API,
sender resolution, the offloaded generation call) are modelled as oracle
values consumed by the control flow exactly where the Python code awaits
them. -/

namespace TgSummary

/- ===== bot.py : message store ===== -/

/- One stored record `(datetime.utcnow(), username, text)`; instants are
modelled as naturals. -/
structure Message where
  timestamp : Nat
  username : String
  text : String
deriving Repr, DecidableEq

/- `self.chat_messages`, the dict from chat id to record list, as an
association list. -/
abbrev ChatStore := List (Int × List Message)

/- `self.chat_messages.get(chat_id, [])`. -/
def getMessages (store : ChatStore) (chatId : Int) : List Message :=
  (store.lookup chatId).getD []

/- `_get_messages_for_period`: `[m for m in messages if m[0] >= cutoff]`
(the list comprehension builds a fresh list, hence the pure reading). -/
def get_messages_for_period (store : ChatStore) (chatId : Int) (cutoff : Nat) : List Message :=
  (getMessages store chatId).filter (fun m => cutoff ≤ m.timestamp)

/- `_store_message`: `self.chat_messages.setdefault(chat_id, []).append(record)`;
an unconditional append, there is no sourceId field and no deduplication. -/
def store_message : ChatStore → Int → Message → ChatStore
  | [], chatId, m => [(chatId, [m])]
  | (k, ms) :: rest, chatId, m =>
    if k = chatId then (k, ms ++ [m]) :: rest
    else (k, ms) :: store_message rest chatId m

/- Chronological (non-decreasing timestamp) order of a buffer. -/
abbrev chron (l : List Message) : Prop :=
  l.Pairwise (fun a b => a.timestamp ≤ b.timestamp)

/- ===== run_gemma.py : backend adapter fault handling ===== -/

/- What happens inside `generate_summary`'s try block: either the decode
succeeds with a raw response string, or one of the handled fault classes
fires (a RuntimeError whose text mentions "probability tensor", any other
RuntimeError, or any other exception). -/
inductive GenOutcome
  | success (raw : String)
  | probTensor
  | runtimeFault
  | unexpectedFault
deriving Repr, DecidableEq

def GenOutcome.isFault : GenOutcome → Bool
  | GenOutcome.success _ => false
  | _ => true

/- `_clean_response`: `response.split("assistant")[-1].strip()` with the
timestamp header prefixed; `ts` is the formatted current instant. -/
def clean_response (response ts : String) : String :=
  "[" ++ ts ++ "] " ++ ((response.splitOn "assistant").getLast?.getD "").trim

/- `generate_summary`: total at its interface, every handled fault is
converted into an error-text string return value. -/
def generate_summary (o : GenOutcome) (ts : String) : String :=
  match o with
  | GenOutcome.success raw => clean_response raw ts
  | GenOutcome.probTensor => "Error: Invalid probabilities in model output"
  | GenOutcome.runtimeFault => "Error: Failed to generate summary"
  | GenOutcome.unexpectedFault => "Error: Unexpected error occurred"

/- ===== bot.py : summary orchestration ===== -/

/- Outcome of one Telegram send/edit call (ok, TelegramRetryAfter,
TelegramAPIError, other exception). -/
inductive TgSend
  | ok
  | retryAfter
  | apiErr
  | exn
deriving Repr, DecidableEq

/- Outcome of the awaited `asyncio.to_thread(generate_summary, ...)` call. -/
inductive GenCall
  | returns (s : String)
  | raises
deriving Repr, DecidableEq

/- Oracle for one pass through `_process_summary_request`: the behaviour of
each external call the pass may perform. -/
structure AttemptEnv where
  replyNoData : TgSend
  replyProgress : TgSend
  gen : GenCall
  editSummary : TgSend
  editError : TgSend
deriving Repr, DecidableEq

/- How one `_process_summary_request` invocation resolves.  `pending` means
the modelled oracle list ran out while the handler was still re-running
itself after a rate limit. -/
inductive Outcome
  | noData
  | delivered (text : String)
  | errorNotice (text : String)
  | raisedApi
  | raisedOther
  | pending
deriving Repr, DecidableEq

def error_notice_text : String :=
  "⚠️ Произошла ошибка при генерации выжимки. Пожалуйста, попробуйте позже."

def summary_delivery_text (period s : String) : String :=
  "📋 Выжимка чата за " ++ period.toLower ++ ":\n\n" ++ s

/- `_process_summary_request`.  The TelegramRetryAfter branch sleeps and
re-invokes the whole handler, which we model by recursing on the remaining
oracle entries (the store, and hence the window, is held fixed across the
re-run).  A TelegramRetryAfter or TelegramAPIError raised by the summary
edit inside the inner try is caught by that try's `except Exception` arm,
which is why `editSummary` outcomes other than ok all lead to the generic
error edit.  Returns (outcome, number of backend generation invocations,
resulting store). -/
def process_summary_request (store : ChatStore) (chatId : Int) (cutoff : Nat) (period : String) :
    List AttemptEnv → Outcome × Nat × ChatStore
  | [] => (Outcome.pending, 0, store)
  | env :: rest =>
    if (get_messages_for_period store chatId cutoff).isEmpty then
      match env.replyNoData with
      | TgSend.ok => (Outcome.noData, 0, store)
      | TgSend.retryAfter => process_summary_request store chatId cutoff period rest
      | TgSend.apiErr => (Outcome.raisedApi, 0, store)
      | TgSend.exn => (Outcome.raisedOther, 0, store)
    else
      match env.replyProgress with
      | TgSend.retryAfter => process_summary_request store chatId cutoff period rest
      | TgSend.apiErr => (Outcome.raisedApi, 0, store)
      | TgSend.exn => (Outcome.raisedOther, 0, store)
      | TgSend.ok =>
        match env.gen with
        | GenCall.returns s =>
          match env.editSummary with
          | TgSend.ok => (Outcome.delivered (summary_delivery_text period s), 1, store)
          | _ =>
            match env.editError with
            | TgSend.ok => (Outcome.errorNotice error_notice_text, 1, store)
            | TgSend.retryAfter =>
              let r := process_summary_request store chatId cutoff period rest
              (r.1, r.2.1 + 1, r.2.2)
            | TgSend.apiErr => (Outcome.raisedApi, 1, store)
            | TgSend.exn => (Outcome.raisedOther, 1, store)
        | GenCall.raises =>
          match env.editError with
          | TgSend.ok => (Outcome.errorNotice error_notice_text, 1, store)
          | TgSend.retryAfter =>
            let r := process_summary_request store chatId cutoff period rest
            (r.1, r.2.1 + 1, r.2.2)
          | TgSend.apiErr => (Outcome.raisedApi, 1, store)
          | TgSend.exn => (Outcome.raisedOther, 1, store)

/- ===== script.py : paginated history importer ===== -/

/- One message as returned by the remote SearchRequest.  `senderId = none`
models a falsy `msg.sender_id`;  `date` models the instant (comparing the
isoformat renderings of two instants agrees with comparing the instants). -/
structure RawMsg where
  id : Nat
  date : Nat
  senderId : Option Nat
  text : String
deriving Repr, DecidableEq

/- Resolved sender attributes (Telethon entity fields, each possibly None). -/
structure SenderInfo where
  username : Option String
  firstName : Option String
  lastName : Option String
deriving Repr, DecidableEq

/- Outcome of one `client(SearchRequest(...))` call. -/
inductive FetchResult
  | page (msgs : List RawMsg)
  | fetchError
deriving Repr

/- Outcome of the batched `client.get_entity(sender_ids)` call; on success
the provider yields attributes for every requested identifier. -/
inductive ResolveResult
  | ok (attrs : Nat → SenderInfo)
  | err

/- Oracle for one loop iteration of `get_chat_history`. -/
structure StepEnv where
  fetch : FetchResult
  resolve : ResolveResult

/- One entry of the `messages_data` output list. -/
structure MsgData where
  senderUsername : Option String
  senderName : Option String
  senderSurname : Option String
  date : Nat
  text : String
deriving Repr, DecidableEq

/- Observable trace of a run: the collected output, the number of
SearchRequest calls issued, the sender batches requested (ids, and whether
the batched resolution call succeeded), the pages successfully fetched, and
whether the loop exited via a break (rather than the oracle list running
out while the loop wanted to continue). -/
structure RunTrace where
  data : List MsgData
  fetchCount : Nat
  batches : List (List Nat × Bool)
  pages : List (List RawMsg)
  finished : Bool
deriving Repr

/- The window filter `start_time.isoformat() <= msg.date.isoformat() <=
end_time.isoformat()` — inclusive at both ends. -/
def in_window (startT endT : Nat) (m : RawMsg) : Bool :=
  decide (startT ≤ m.date) && decide (m.date ≤ endT)

/- `{msg.sender_id for msg in batch_messages if msg.sender_id and
msg.sender_id not in sender_cache}` — the distinct, not-yet-cached sender
identifiers of a page. -/
def sender_ids_to_resolve (batch : List RawMsg) (cache : List (Nat × SenderInfo)) : List Nat :=
  ((batch.filterMap RawMsg.senderId).filter (fun i => (cache.lookup i).isNone)).dedup

/- The `if sender_ids: try get_entity ... except` block: at most one batched
resolution call per page; on success the cache is extended with every
requested identifier, on failure (or an empty id set) it is unchanged.
Returns the updated cache and the recorded resolution batches. -/
def resolve_step (cache : List (Nat × SenderInfo)) (ids : List Nat) (r : ResolveResult) :
    List (Nat × SenderInfo) × List (List Nat × Bool) :=
  if ids.isEmpty then (cache, [])
  else
    match r with
    | ResolveResult.ok attrs => (cache ++ ids.map (fun i => (i, attrs i)), [(ids, true)])
    | ResolveResult.err => (cache, [(ids, false)])

/- `sender = sender_cache.get(msg.sender_id) if msg.sender_id else None`
followed by the attribute extraction with None fallbacks. -/
def attach_sender (cache : List (Nat × SenderInfo)) (m : RawMsg) : MsgData :=
  match m.senderId with
  | none => ⟨none, none, none, m.date, m.text⟩
  | some sid =>
    match cache.lookup sid with
    | none => ⟨none, none, none, m.date, m.text⟩
    | some s => ⟨s.username, s.firstName, s.lastName, m.date, m.text⟩

/- The `while True` loop of `get_chat_history`, driven by the oracle list
(one entry per iteration): a fetch error breaks immediately (no retry); an
empty page breaks; otherwise the page is window-filtered, senders are
batch-resolved, the records are emitted, and a page shorter than the limit
of 100 is the last one, else the loop continues with the last message's id
as the new offset. -/
def get_chat_history (startT endT : Nat) :
    List StepEnv → Nat → List (Nat × SenderInfo) → RunTrace
  | [], _, _ => ⟨[], 0, [], [], false⟩
  | env :: rest, _offsetId, cache =>
    match env.fetch with
    | FetchResult.fetchError => ⟨[], 1, [], [], true⟩
    | FetchResult.page msgs =>
      if msgs.isEmpty then ⟨[], 1, [], [msgs], true⟩
      else
        let batch := msgs.filter (in_window startT endT)
        let ids := sender_ids_to_resolve batch cache
        let step := resolve_step cache ids env.resolve
        let newData := batch.map (attach_sender step.1)
        if msgs.length < 100 then
          ⟨newData, 1, step.2, [msgs], true⟩
        else
          let t := get_chat_history startT endT rest ((msgs.getLast?.map RawMsg.id).getD 0) step.1
          ⟨newData ++ t.data, 1 + t.fetchCount, step.2 ++ t.batches, msgs :: t.pages, t.finished⟩

/- Number of successful resolution batches of a trace that contain a given
identifier. -/
def count_successful_batches (i : Nat) (bs : List (List Nat × Bool)) : Nat :=
  (bs.filter (fun b => b.2 && decide (i ∈ b.1))).length

/- An oracle entry whose fetch succeeds with a full page (the loop will
continue past it). -/
def is_full_page (e : StepEnv) : Prop :=
  ∃ msgs, e.fetch = FetchResult.page msgs ∧ 100 ≤ msgs.length

/- An oracle entry on which the loop breaks: a fetch error, or a page that
is empty or shorter than the requested size. -/
def is_stop_env (e : StepEnv) : Prop :=
  e.fetch = FetchResult.fetchError ∨ ∃ msgs, e.fetch = FetchResult.page msgs ∧ msgs.length < 100

/- Total number of messages the provider returned across fetched pages. -/
def total_fetched (t : RunTrace) : Nat :=
  (t.pages.map List.length).sum

/- ===== theorems ===== -/

theorem chron_filter_suffix (cutoff : Nat) (l : List Message) (hl : chron l) :
    List.IsSuffix (l.filter (fun m => cutoff ≤ m.timestamp)) l := by
  induction l with
  | nil => simp
  | cons a tl ih =>
    rcases List.pairwise_cons.mp hl with ⟨ha, htl⟩
    by_cases hc : cutoff ≤ a.timestamp
    · have hall : ∀ m ∈ a :: tl, (fun m : Message => decide (cutoff ≤ m.timestamp)) m = true := by
        intro m hm
        rcases List.mem_cons.mp hm with h | h
        · subst h; simpa using hc
        · simpa using le_trans hc (ha m h)
      rw [List.filter_eq_self.mpr hall]
    · rw [List.filter_cons_of_neg]
      · exact (ih htl).trans (List.suffix_cons a tl)
      · simpa using hc

/-- C1: for every conversation id and cutoff, the window query of a
chronologically ordered buffer returns exactly the messages with
`timestamp >= cutoff`, chronologically ordered, as a contiguous suffix of
the buffer, and an unknown conversation id yields the empty sequence (the
query itself is a pure function of the store, so it mutates nothing). -/
theorem c1_window_query (store : ChatStore) (chatId : Int) (cutoff : Nat)
    (hs : chron (getMessages store chatId)) :
    chron (get_messages_for_period store chatId cutoff)
    ∧ List.IsSuffix (get_messages_for_period store chatId cutoff) (getMessages store chatId)
    ∧ (∀ m : Message, m ∈ get_messages_for_period store chatId cutoff ↔
        m ∈ getMessages store chatId ∧ cutoff ≤ m.timestamp)
    ∧ (store.lookup chatId = none → get_messages_for_period store chatId cutoff = []) := by
  refine ⟨List.Pairwise.filter _ hs, chron_filter_suffix cutoff _ hs, ?_, ?_⟩
  · intro m; simp [get_messages_for_period, List.mem_filter]
  · intro h; simp [get_messages_for_period, getMessages, h]

/-- Witness for C1 at a concrete two-message buffer and at an unknown id. -/
theorem c1_window_query_witness :
    chron (get_messages_for_period [((1 : Int), [⟨0, "a", "x"⟩, ⟨10, "b", "y"⟩])] 1 5)
    ∧ List.IsSuffix (get_messages_for_period [((1 : Int), [⟨0, "a", "x"⟩, ⟨10, "b", "y"⟩])] 1 5)
        (getMessages [((1 : Int), [⟨0, "a", "x"⟩, ⟨10, "b", "y"⟩])] 1)
    ∧ ((⟨10, "b", "y"⟩ : Message) ∈ get_messages_for_period [((1 : Int), [⟨0, "a", "x"⟩, ⟨10, "b", "y"⟩])] 1 5 ↔
        (⟨10, "b", "y"⟩ : Message) ∈ getMessages [((1 : Int), [⟨0, "a", "x"⟩, ⟨10, "b", "y"⟩])] 1 ∧ 5 ≤ 10)
    ∧ get_messages_for_period [] 42 0 = [] :=
  ⟨(c1_window_query [((1 : Int), [⟨0, "a", "x"⟩, ⟨10, "b", "y"⟩])] 1 5 (by decide)).1,
   (c1_window_query [((1 : Int), [⟨0, "a", "x"⟩, ⟨10, "b", "y"⟩])] 1 5 (by decide)).2.1,
   (c1_window_query [((1 : Int), [⟨0, "a", "x"⟩, ⟨10, "b", "y"⟩])] 1 5 (by decide)).2.2.1 _,
   (c1_window_query [] 42 0 (by decide)).2.2.2 rfl⟩

/-- C2: a conversation whose selected window is empty resolves to the
no-data outcome (when the no-data reply is deliverable) and performs zero
backend generation invocations on every execution path, leaving the store
unchanged. -/
theorem c2_empty_window (store : ChatStore) (chatId : Int) (cutoff : Nat) (period : String)
    (h : get_messages_for_period store chatId cutoff = []) :
    (∀ envs, (process_summary_request store chatId cutoff period envs).2.1 = 0
      ∧ (process_summary_request store chatId cutoff period envs).2.2 = store)
    ∧ (∀ env rest, env.replyNoData = TgSend.ok →
        (process_summary_request store chatId cutoff period (env :: rest)).1 = Outcome.noData) := by
  have hE : (get_messages_for_period store chatId cutoff).isEmpty = true := by simp [h]
  constructor
  · intro envs
    induction envs with
    | nil => exact ⟨rfl, rfl⟩
    | cons env rest ih =>
      simp only [process_summary_request, hE, if_true]
      cases henv : env.replyNoData <;> simp [henv, ih]
  · intro env rest henv
    simp only [process_summary_request, hE, if_true]
    simp [henv]

/-- Witness for C2 at the empty store. -/
theorem c2_empty_window_witness :
    ((process_summary_request [] 7 0 "24 часа"
        [⟨TgSend.ok, TgSend.ok, GenCall.raises, TgSend.ok, TgSend.ok⟩]).2.1 = 0
      ∧ (process_summary_request [] 7 0 "24 часа"
        [⟨TgSend.ok, TgSend.ok, GenCall.raises, TgSend.ok, TgSend.ok⟩]).2.2 = [])
    ∧ (process_summary_request [] 7 0 "24 часа"
        [⟨TgSend.ok, TgSend.ok, GenCall.raises, TgSend.ok, TgSend.ok⟩]).1 = Outcome.noData :=
  ⟨(c2_empty_window [] 7 0 "24 часа" rfl).1 _,
   (c2_empty_window [] 7 0 "24 часа" rfl).2 _ [] rfl⟩

/-- C3 counterexample: `_store_message` has no sourceId and no
deduplication, so appending a record identical to one already in the buffer
(the strongest available reading of "same sourceId") grows the buffer from
one record to two, refuting idempotence. -/
theorem c3_duplicate_append_counterexample :
    store_message [((0 : Int), [⟨1, "u", "hello"⟩])] 0 ⟨1, "u", "hello"⟩
      = [((0 : Int), [⟨1, "u", "hello"⟩, ⟨1, "u", "hello"⟩])]
    ∧ (getMessages (store_message [((0 : Int), [⟨1, "u", "hello"⟩])] 0 ⟨1, "u", "hello"⟩) 0).length
        ≠ (getMessages [((0 : Int), [⟨1, "u", "hello"⟩])] 0).length := by
  constructor
  · rfl
  · decide

/-- C3 (amended): `_store_message` unconditionally appends the record to the
end of the conversation's buffer — records carry no sourceId and no
duplicate check is performed, so every append (duplicate or not) grows the
buffer by exactly one. -/
theorem c3_append_always_appends (store : ChatStore) (chatId : Int) (m : Message) :
    getMessages (store_message store chatId m) chatId = getMessages store chatId ++ [m] := by
  induction store with
  | nil => simp [store_message, getMessages, List.lookup]
  | cons kv rest ih =>
    obtain ⟨k, ms⟩ := kv
    by_cases h : k = chatId
    · subst h
      simp [store_message, getMessages, List.lookup]
    · simp only [store_message, if_neg h]
      have hbe : (chatId == k) = false := beq_eq_false_iff_ne.mpr (Ne.symm h)
      simpa [getMessages, List.lookup, hbe] using ih

/-- C4 counterexample: one rate-limited delivery (the summary edit hits
TelegramRetryAfter, then the error-notice edit hits TelegramRetryAfter,
forcing the recursive re-run) makes the backend generation step execute
twice for a single original request, refuting "invoked at most once per
original request and never re-executed on the retry path". -/
theorem c4_regenerates_counterexample :
    (process_summary_request [((0 : Int), [⟨5, "u", "m"⟩])] 0 0 "24 часа"
      [⟨TgSend.ok, TgSend.ok, GenCall.returns "S", TgSend.retryAfter, TgSend.retryAfter⟩,
       ⟨TgSend.ok, TgSend.ok, GenCall.returns "S", TgSend.ok, TgSend.ok⟩]).2.1 = 2
    ∧ ¬(2 ≤ 1) := by
  constructor
  · rfl
  · decide

/-- C4 (amended): on a platform rate limit the handler re-invokes itself
whole, re-querying and re-generating: (1) a rate-limited progress reply
makes the re-run literally equal to a fresh run on the remaining oracle;
(2) a rate-limited error-notice edit adds one more backend invocation on
top of the re-run's; (3) a rate limit on the summary edit itself is
swallowed by the inner generic handler — the generated text is discarded
(not reused) and no retry of that delivery happens. -/
theorem c4_retry_reruns_handler (store : ChatStore) (chatId : Int) (cutoff : Nat)
    (period : String) (env : AttemptEnv) (rest : List AttemptEnv) (s : String) :
    ((get_messages_for_period store chatId cutoff).isEmpty = false →
      env.replyProgress = TgSend.retryAfter →
      process_summary_request store chatId cutoff period (env :: rest)
        = process_summary_request store chatId cutoff period rest)
    ∧ ((get_messages_for_period store chatId cutoff).isEmpty = false →
      env.replyProgress = TgSend.ok → env.gen = GenCall.raises →
      env.editError = TgSend.retryAfter →
      (process_summary_request store chatId cutoff period (env :: rest)).2.1
        = (process_summary_request store chatId cutoff period rest).2.1 + 1
      ∧ (process_summary_request store chatId cutoff period (env :: rest)).1
        = (process_summary_request store chatId cutoff period rest).1)
    ∧ ((get_messages_for_period store chatId cutoff).isEmpty = false →
      env.replyProgress = TgSend.ok → env.gen = GenCall.returns s →
      env.editSummary = TgSend.retryAfter → env.editError = TgSend.ok →
      process_summary_request store chatId cutoff period (env :: rest)
        = (Outcome.errorNotice error_notice_text, 1, store)) := by
  refine ⟨?_, ?_, ?_⟩
  · intro hE h1
    simp only [process_summary_request]
    rw [if_neg (by simp [hE])]
    simp [h1]
  · intro hE h1 h2 h3
    simp only [process_summary_request]
    rw [if_neg (by simp [hE])]
    simp [h1, h2, h3]
  · intro hE h1 h2 h3 h4
    simp only [process_summary_request]
    rw [if_neg (by simp [hE])]
    simp [h1, h2, h3, h4]

/-- Witness for C4 (amended) at concrete runs exercising all three parts. -/
theorem c4_retry_reruns_handler_witness :
    process_summary_request [((0 : Int), [⟨5, "u", "m"⟩])] 0 0 "п"
        [⟨TgSend.ok, TgSend.retryAfter, GenCall.raises, TgSend.ok, TgSend.ok⟩]
      = process_summary_request [((0 : Int), [⟨5, "u", "m"⟩])] 0 0 "п" []
    ∧ ((process_summary_request [((0 : Int), [⟨5, "u", "m"⟩])] 0 0 "п"
        [⟨TgSend.ok, TgSend.ok, GenCall.raises, TgSend.retryAfter, TgSend.retryAfter⟩]).2.1
      = (process_summary_request [((0 : Int), [⟨5, "u", "m"⟩])] 0 0 "п" []).2.1 + 1
      ∧ (process_summary_request [((0 : Int), [⟨5, "u", "m"⟩])] 0 0 "п"
        [⟨TgSend.ok, TgSend.ok, GenCall.raises, TgSend.retryAfter, TgSend.retryAfter⟩]).1
      = (process_summary_request [((0 : Int), [⟨5, "u", "m"⟩])] 0 0 "п" []).1)
    ∧ process_summary_request [((0 : Int), [⟨5, "u", "m"⟩])] 0 0 "п"
        [⟨TgSend.ok, TgSend.ok, GenCall.returns "S", TgSend.retryAfter, TgSend.ok⟩]
      = (Outcome.errorNotice error_notice_text, 1, [((0 : Int), [⟨5, "u", "m"⟩])]) :=
  ⟨(c4_retry_reruns_handler [((0 : Int), [⟨5, "u", "m"⟩])] 0 0 "п"
      ⟨TgSend.ok, TgSend.retryAfter, GenCall.raises, TgSend.ok, TgSend.ok⟩ [] "S").1 rfl rfl,
   (c4_retry_reruns_handler [((0 : Int), [⟨5, "u", "m"⟩])] 0 0 "п"
      ⟨TgSend.ok, TgSend.ok, GenCall.raises, TgSend.retryAfter, TgSend.retryAfter⟩ [] "S").2.1
      rfl rfl rfl rfl,
   (c4_retry_reruns_handler [((0 : Int), [⟨5, "u", "m"⟩])] 0 0 "п"
      ⟨TgSend.ok, TgSend.ok, GenCall.returns "S", TgSend.retryAfter, TgSend.ok⟩ [] "S").2.2
      rfl rfl rfl rfl rfl⟩

/-- C8: the code enforces no timeout around the offloaded generation call —
on every execution path the handler leaves the conversation store unchanged
(the atomicity half of the claim holds), and the only error notice it can
ever deliver is the fixed generic text, never a timeout diagnostic. -/
theorem c8_no_timeout_diagnostic (store : ChatStore) (chatId : Int) (cutoff : Nat)
    (period : String) (envs : List AttemptEnv) (t : String) :
    (process_summary_request store chatId cutoff period envs).2.2 = store
    ∧ ((process_summary_request store chatId cutoff period envs).1 = Outcome.errorNotice t →
        t = error_notice_text) := by
  induction envs with
  | nil => exact ⟨rfl, fun h => by cases h⟩
  | cons env rest ih =>
    obtain ⟨hst, hout⟩ := ih
    obtain ⟨rn, rp, g, es, ee⟩ := env
    by_cases hE : (get_messages_for_period store chatId cutoff).isEmpty
    · simp only [process_summary_request]
      rw [if_pos hE]
      cases rn <;>
        refine ⟨?_, ?_⟩ <;>
        first
          | rfl
          | exact hst
          | (intro h; cases h <;> rfl)
          | (intro h; exact hout h)
    · simp only [process_summary_request]
      rw [if_neg hE]
      cases rp <;> cases g <;> cases es <;> cases ee <;>
        refine ⟨?_, ?_⟩ <;>
        first
          | rfl
          | exact hst
          | (intro h; cases h <;> rfl)
          | (intro h; exact hout h)

/-- Witness for C8 at a concrete run whose generation raises and whose
error notice is delivered. -/
theorem c8_no_timeout_diagnostic_witness :
    (process_summary_request [((0 : Int), [⟨5, "u", "m"⟩])] 0 0 "п"
      [⟨TgSend.ok, TgSend.ok, GenCall.raises, TgSend.ok, TgSend.ok⟩]).2.2
      = [((0 : Int), [⟨5, "u", "m"⟩])]
    ∧ error_notice_text = error_notice_text :=
  ⟨(c8_no_timeout_diagnostic [((0 : Int), [⟨5, "u", "m"⟩])] 0 0 "п"
      [⟨TgSend.ok, TgSend.ok, GenCall.raises, TgSend.ok, TgSend.ok⟩] error_notice_text).1,
   (c8_no_timeout_diagnostic [((0 : Int), [⟨5, "u", "m"⟩])] 0 0 "п"
      [⟨TgSend.ok, TgSend.ok, GenCall.raises, TgSend.ok, TgSend.ok⟩] error_notice_text).2 rfl⟩

/-- C10: `generate_summary` is total at its interface — every handled
internal fault is converted into one of the fixed error-text strings — and
the orchestrator delivers such a string through the very same success path
(the `delivered` outcome with the standard summary framing) as a genuine
summary, so a backend fault is indistinguishable from success at the
delivery interface. -/
theorem c10_backend_total (o : GenOutcome) (ts : String) (store : ChatStore) (chatId : Int)
    (cutoff : Nat) (period : String) (env : AttemptEnv) (rest : List AttemptEnv) :
    (GenOutcome.isFault o = true →
      generate_summary o ts = "Error: Invalid probabilities in model output"
      ∨ generate_summary o ts = "Error: Failed to generate summary"
      ∨ generate_summary o ts = "Error: Unexpected error occurred")
    ∧ ((get_messages_for_period store chatId cutoff).isEmpty = false →
      env.replyProgress = TgSend.ok →
      env.gen = GenCall.returns (generate_summary o ts) →
      env.editSummary = TgSend.ok →
      (process_summary_request store chatId cutoff period (env :: rest)).1
        = Outcome.delivered (summary_delivery_text period (generate_summary o ts))) := by
  constructor
  · intro hf
    cases o
    · cases hf
    · exact Or.inl rfl
    · exact Or.inr (Or.inl rfl)
    · exact Or.inr (Or.inr rfl)
  · intro hE h1 h2 h3
    simp only [process_summary_request]
    rw [if_neg (by simp [hE])]
    simp [h1, h2, h3]

/-- Witness for C10 at the probability-tensor fault on a one-message
buffer. -/
theorem c10_backend_total_witness :
    (generate_summary GenOutcome.probTensor "T" = "Error: Invalid probabilities in model output"
      ∨ generate_summary GenOutcome.probTensor "T" = "Error: Failed to generate summary"
      ∨ generate_summary GenOutcome.probTensor "T" = "Error: Unexpected error occurred")
    ∧ (process_summary_request [((0 : Int), [⟨5, "u", "m"⟩])] 0 0 "п"
        [⟨TgSend.ok, TgSend.ok, GenCall.returns (generate_summary GenOutcome.probTensor "T"),
          TgSend.ok, TgSend.ok⟩]).1
      = Outcome.delivered (summary_delivery_text "п" (generate_summary GenOutcome.probTensor "T")) :=
  ⟨(c10_backend_total GenOutcome.probTensor "T" [((0 : Int), [⟨5, "u", "m"⟩])] 0 0 "п"
      ⟨TgSend.ok, TgSend.ok, GenCall.returns (generate_summary GenOutcome.probTensor "T"),
        TgSend.ok, TgSend.ok⟩ []).1 rfl,
   (c10_backend_total GenOutcome.probTensor "T" [((0 : Int), [⟨5, "u", "m"⟩])] 0 0 "п"
      ⟨TgSend.ok, TgSend.ok, GenCall.returns (generate_summary GenOutcome.probTensor "T"),
        TgSend.ok, TgSend.ok⟩ []).2 rfl rfl rfl rfl⟩

theorem gch_nil (startT endT off : Nat) (cache : List (Nat × SenderInfo)) :
    get_chat_history startT endT [] off cache = ⟨[], 0, [], [], false⟩ := rfl

theorem gch_err (startT endT off : Nat) (cache : List (Nat × SenderInfo))
    (r : ResolveResult) (rest : List StepEnv) :
    get_chat_history startT endT (⟨FetchResult.fetchError, r⟩ :: rest) off cache
      = ⟨[], 1, [], [], true⟩ := rfl

theorem gch_page_empty (startT endT off : Nat) (cache : List (Nat × SenderInfo))
    (r : ResolveResult) (rest : List StepEnv) :
    get_chat_history startT endT (⟨FetchResult.page [], r⟩ :: rest) off cache
      = ⟨[], 1, [], [[]], true⟩ := rfl

theorem gch_page_stop (startT endT off : Nat) (cache : List (Nat × SenderInfo))
    (msgs : List RawMsg) (r : ResolveResult) (rest : List StepEnv)
    (hne : msgs ≠ []) (h : msgs.length < 100) :
    get_chat_history startT endT (⟨FetchResult.page msgs, r⟩ :: rest) off cache =
      (let batch := msgs.filter (in_window startT endT)
       let step := resolve_step cache (sender_ids_to_resolve batch cache) r
       ⟨batch.map (attach_sender step.1), 1, step.2, [msgs], true⟩) := by
  have h0 : msgs.isEmpty = false := by
    cases msgs with
    | nil => exact absurd rfl hne
    | cons a l => rfl
  simp [get_chat_history, h0, h]

theorem gch_page_full (startT endT off : Nat) (cache : List (Nat × SenderInfo))
    (msgs : List RawMsg) (r : ResolveResult) (rest : List StepEnv)
    (h : 100 ≤ msgs.length) :
    get_chat_history startT endT (⟨FetchResult.page msgs, r⟩ :: rest) off cache =
      (let batch := msgs.filter (in_window startT endT)
       let step := resolve_step cache (sender_ids_to_resolve batch cache) r
       let t := get_chat_history startT endT rest ((msgs.getLast?.map RawMsg.id).getD 0) step.1
       ⟨(batch.map (attach_sender step.1)) ++ t.data, 1 + t.fetchCount,
        step.2 ++ t.batches, msgs :: t.pages, t.finished⟩) := by
  have h0 : msgs.isEmpty = false := by
    cases msgs with
    | nil => simp at h
    | cons a l => rfl
  have h1 : ¬(msgs.length < 100) := by omega
  simp [get_chat_history, h0, h1]

theorem attach_sender_date (cache : List (Nat × SenderInfo)) (m : RawMsg) :
    (attach_sender cache m).date = m.date := by
  cases hm : m.senderId with
  | none => simp [attach_sender, hm]
  | some sid =>
    cases hl : cache.lookup sid <;> simp [attach_sender, hm, hl]

theorem attach_sender_nil (m : RawMsg) :
    attach_sender [] m = ⟨none, none, none, m.date, m.text⟩ := by
  cases hm : m.senderId with
  | none => simp [attach_sender, hm]
  | some sid => simp [attach_sender, hm, List.lookup]

theorem resolve_step_err_cache (cache : List (Nat × SenderInfo)) (ids : List Nat) :
    (resolve_step cache ids ResolveResult.err).1 = cache := by
  unfold resolve_step
  split <;> rfl

theorem resolve_step_batches_len (cache : List (Nat × SenderInfo)) (ids : List Nat)
    (r : ResolveResult) : (resolve_step cache ids r).2.length ≤ 1 := by
  unfold resolve_step
  split
  · simp
  · cases r <;> simp

/-- C6 counterexample: the importer's filter compares isoformat strings
inclusively at both ends, so a message timestamped exactly at the window
end (here 100 with window end 100) IS emitted, refuting the half-open
`[start, end)` reading under which it must be excluded. -/
theorem c6_half_open_counterexample :
    (get_chat_history 0 100
        [⟨FetchResult.page [⟨1, 100, none, "x"⟩], ResolveResult.err⟩] 0 []).data
      = [⟨none, none, none, 100, "x"⟩]
    ∧ ¬(100 < 100) := by
  constructor
  · rfl
  · decide

/-- C6 (amended): every message in the importer's output has a timestamp t
with `start <= t <= end` — the window is closed, a message timestamped
exactly at `end` is included — regardless of what out-of-window messages
the provider returns within a page. -/
theorem c6_window_closed (startT endT : Nat) (envs : List StepEnv) (off : Nat)
    (cache : List (Nat × SenderInfo)) (d : MsgData)
    (hd : d ∈ (get_chat_history startT endT envs off cache).data) :
    startT ≤ d.date ∧ d.date ≤ endT := by
  induction envs generalizing off cache with
  | nil => rw [gch_nil] at hd; cases hd
  | cons env rest ih =>
    obtain ⟨f, r⟩ := env
    cases f with
    | fetchError => rw [gch_err] at hd; cases hd
    | page msgs =>
      rcases eq_or_ne msgs [] with hm | hm
      · subst hm; rw [gch_page_empty] at hd; cases hd
      · have hmem : ∀ m ∈ msgs.filter (in_window startT endT),
            ∀ c : List (Nat × SenderInfo),
            startT ≤ (attach_sender c m).date ∧ (attach_sender c m).date ≤ endT := by
          intro m hmm c
          have hw := (List.mem_filter.mp hmm).2
          rw [attach_sender_date]
          simpa [in_window] using hw
        by_cases hlen : msgs.length < 100
        · rw [gch_page_stop startT endT off cache msgs r rest hm hlen] at hd
          simp only [List.mem_map] at hd
          obtain ⟨m, hmm, hemb⟩ := hd
          rw [← hemb]
          exact hmem m hmm _
        · have hlen' : 100 ≤ msgs.length := by omega
          rw [gch_page_full startT endT off cache msgs r rest hlen'] at hd
          simp only [List.mem_append, List.mem_map] at hd
          rcases hd with ⟨m, hmm, hemb⟩ | hrec
          · rw [← hemb]
            exact hmem m hmm _
          · exact ih _ _ hrec

/-- Witness for C6 (amended) at a concrete one-page run. -/
theorem c6_window_closed_witness :
    (0 : Nat) ≤ (⟨none, none, none, 5, "a"⟩ : MsgData).date
    ∧ (⟨none, none, none, 5, "a"⟩ : MsgData).date ≤ 10 :=
  c6_window_closed 0 10 [⟨FetchResult.page [⟨1, 5, none, "a"⟩], ResolveResult.err⟩] 0 []
    ⟨none, none, none, 5, "a"⟩ (by decide)

/-- C5 counterexample: with the very first fetch failing and a further page
available, the run issues exactly one fetch attempt (no retry of the failed
page — a retried-once policy would have issued a second attempt and
collected the waiting message) and returns the empty partial result. -/
theorem c5_no_retry_counterexample :
    (get_chat_history 0 10
        [⟨FetchResult.fetchError, ResolveResult.err⟩,
         ⟨FetchResult.page [⟨1, 5, none, "hi"⟩], ResolveResult.err⟩] 0 []).fetchCount = 1
    ∧ (get_chat_history 0 10
        [⟨FetchResult.fetchError, ResolveResult.err⟩,
         ⟨FetchResult.page [⟨1, 5, none, "hi"⟩], ResolveResult.err⟩] 0 []).data = []
    ∧ (get_chat_history 0 10
        [⟨FetchResult.fetchError, ResolveResult.err⟩,
         ⟨FetchResult.page [⟨1, 5, none, "hi"⟩], ResolveResult.err⟩] 0 []).fetchCount ≠ 2 := by
  refine ⟨rfl, rfl, ?_⟩
  decide

/-- C5 (amended): a fetch error on page N is not retried — the run breaks
immediately after the single failed attempt (fetch count N, nothing after
the error consumed) and returns, rather than raises, exactly the messages
collected from the N-1 full pages before it (the data of the run over
those pages alone). -/
theorem c5_fetch_error_partial (startT endT : Nat) (envs rest : List StepEnv) (off : Nat)
    (cache : List (Nat × SenderInfo)) (h : ∀ x ∈ envs, is_full_page x) :
    (get_chat_history startT endT
        (envs ++ ⟨FetchResult.fetchError, ResolveResult.err⟩ :: rest) off cache).data
      = (get_chat_history startT endT envs off cache).data
    ∧ (get_chat_history startT endT
        (envs ++ ⟨FetchResult.fetchError, ResolveResult.err⟩ :: rest) off cache).fetchCount
      = envs.length + 1
    ∧ (get_chat_history startT endT
        (envs ++ ⟨FetchResult.fetchError, ResolveResult.err⟩ :: rest) off cache).finished
      = true := by
  induction envs generalizing off cache with
  | nil => exact ⟨rfl, rfl, rfl⟩
  | cons env envs' ih =>
    obtain ⟨msgs, hf, hlen⟩ := h env (List.mem_cons_self env envs')
    obtain ⟨f, r⟩ := env
    simp only at hf
    subst hf
    have h' : ∀ x ∈ envs', is_full_page x := fun x hx => h x (List.mem_cons_of_mem _ hx)
    obtain ⟨ihd, ihc, ihf⟩ := ih ((msgs.getLast?.map RawMsg.id).getD 0)
      (resolve_step cache
        (sender_ids_to_resolve (msgs.filter (in_window startT endT)) cache) r).1 h'
    rw [List.cons_append, gch_page_full startT endT off cache msgs r _ hlen,
      gch_page_full startT endT off cache msgs r _ hlen]
    refine ⟨?_, ?_, ?_⟩
    · simpa using ihd
    · simp [ihc]
      try omega
    · simpa using ihf

/-- Witness for C5 (amended): one full page of 100 messages, then a fetch
error; the run returns that page's processed records and stops at fetch 2. -/
theorem c5_fetch_error_partial_witness :
    (get_chat_history 0 10
        ([⟨FetchResult.page (List.replicate 100 ⟨1, 5, none, "x"⟩), ResolveResult.err⟩]
          ++ ⟨FetchResult.fetchError, ResolveResult.err⟩ :: []) 0 []).data
      = (get_chat_history 0 10
          [⟨FetchResult.page (List.replicate 100 ⟨1, 5, none, "x"⟩), ResolveResult.err⟩] 0 []).data
    ∧ (get_chat_history 0 10
        ([⟨FetchResult.page (List.replicate 100 ⟨1, 5, none, "x"⟩), ResolveResult.err⟩]
          ++ ⟨FetchResult.fetchError, ResolveResult.err⟩ :: []) 0 []).fetchCount
      = 1 + 1
    ∧ (get_chat_history 0 10
        ([⟨FetchResult.page (List.replicate 100 ⟨1, 5, none, "x"⟩), ResolveResult.err⟩]
          ++ ⟨FetchResult.fetchError, ResolveResult.err⟩ :: []) 0 []).finished
      = true :=
  c5_fetch_error_partial 0 10
    [⟨FetchResult.page (List.replicate 100 ⟨1, 5, none, "x"⟩), ResolveResult.err⟩] [] 0 []
    (by
      intro x hx
      rw [List.mem_singleton] at hx
      subst hx
      exact ⟨_, rfl, by simp⟩)

/-- C7 counterexample: a full page of 100 messages all outside the window
followed by an empty page costs 2 fetches while contributing 0 matching
messages, exceeding the claimed bound of ceil(0 / 100) + 1 = 1 fetches —
pagination continues on any full page regardless of how many of its
messages match. -/
theorem c7_bound_counterexample :
    (get_chat_history 0 10
        [⟨FetchResult.page (List.replicate 100 ⟨1, 999, none, "x"⟩), ResolveResult.err⟩,
         ⟨FetchResult.page [], ResolveResult.err⟩] 0 []).fetchCount = 2
    ∧ (get_chat_history 0 10
        [⟨FetchResult.page (List.replicate 100 ⟨1, 999, none, "x"⟩), ResolveResult.err⟩,
         ⟨FetchResult.page [], ResolveResult.err⟩] 0 []).data = []
    ∧ ¬((2 : Nat) ≤ 0 / 100 + 1) := by
  refine ⟨rfl, rfl, ?_⟩
  decide

/-- C7 (amended): pagination stops immediately after the first fetched page
that is empty or shorter than the page size of 100 (so with page size 100 a
page of 40 is the last page fetched), and the number of page fetches is at
most (total number of messages the provider returned across fetched pages)
/ 100 + 1 — the bound holds for the messages the provider serves, not for
the window-matching ones. -/
theorem c7_pagination_stops (startT endT : Nat) (envs : List StepEnv) (e : StepEnv)
    (rest : List StepEnv) (off : Nat) (cache : List (Nat × SenderInfo))
    (hfull : ∀ x ∈ envs, is_full_page x) (hstop : is_stop_env e) :
    ((get_chat_history startT endT (envs ++ e :: rest) off cache).fetchCount = envs.length + 1
      ∧ (get_chat_history startT endT (envs ++ e :: rest) off cache).finished = true)
    ∧ (∀ envs2 off2 (cache2 : List (Nat × SenderInfo)),
        (get_chat_history startT endT envs2 off2 cache2).fetchCount
          ≤ total_fetched (get_chat_history startT endT envs2 off2 cache2) / 100 + 1) := by
  constructor
  · induction envs generalizing off cache with
    | nil =>
      obtain ⟨f, r⟩ := e
      rcases hstop with hf | ⟨msgs, hf, hlen⟩
      · simp only at hf
        subst hf
        exact ⟨rfl, rfl⟩
      · simp only at hf
        subst hf
        rcases eq_or_ne msgs [] with hm | hm
        · subst hm
          exact ⟨rfl, rfl⟩
        · rw [List.nil_append, gch_page_stop startT endT off cache msgs r rest hm hlen]
          exact ⟨rfl, rfl⟩
    | cons env envs' ih =>
      obtain ⟨msgs, hf, hlen⟩ := hfull env (List.mem_cons_self env envs')
      obtain ⟨f, r⟩ := env
      simp only at hf
      subst hf
      have h' : ∀ x ∈ envs', is_full_page x := fun x hx => hfull x (List.mem_cons_of_mem _ hx)
      obtain ⟨ihc, ihf⟩ := ih ((msgs.getLast?.map RawMsg.id).getD 0)
        (resolve_step cache
          (sender_ids_to_resolve (msgs.filter (in_window startT endT)) cache) r).1 h'
      rw [List.cons_append, gch_page_full startT endT off cache msgs r _ hlen]
      constructor
      · simp [ihc]
        try omega
      · simpa using ihf
  · intro envs2
    induction envs2 with
    | nil => intro off2 cache2; simp [gch_nil, total_fetched]
    | cons env rest2 ih =>
      intro off2 cache2
      obtain ⟨f, r⟩ := env
      cases f with
      | fetchError => simp [gch_err, total_fetched]
      | page msgs =>
        rcases eq_or_ne msgs [] with hm | hm
        · subst hm
          simp [gch_page_empty, total_fetched]
        · by_cases hlen : msgs.length < 100
          · rw [gch_page_stop startT endT off2 cache2 msgs r rest2 hm hlen]
            simp [total_fetched]
          · have hlen' : 100 ≤ msgs.length := by omega
            rw [gch_page_full startT endT off2 cache2 msgs r rest2 hlen']
            have iht := ih ((msgs.getLast?.map RawMsg.id).getD 0)
              (resolve_step cache2
                (sender_ids_to_resolve (msgs.filter (in_window startT endT)) cache2) r).1
            simp only [total_fetched] at iht ⊢
            simp only [List.map_cons, List.sum_cons]
            set t := get_chat_history startT endT rest2 ((msgs.getLast?.map RawMsg.id).getD 0)
              (resolve_step cache2
                (sender_ids_to_resolve (msgs.filter (in_window startT endT)) cache2) r).1
            have h2 : ((t.pages.map List.length).sum + 100) / 100
                ≤ (msgs.length + (t.pages.map List.length).sum) / 100 :=
              Nat.div_le_div_right (by omega)
            have h3 : ((t.pages.map List.length).sum + 100) / 100
                = (t.pages.map List.length).sum / 100 + 1 :=
              Nat.add_div_right _ (by norm_num)
            omega

/-- Witness for C7 (amended): pages of 100, 100, then 40 messages — the run
stops after the third fetch — and a concrete instance of the fetch bound. -/
theorem c7_pagination_stops_witness :
    ((get_chat_history 0 10
        ([⟨FetchResult.page (List.replicate 100 ⟨1, 5, none, "x"⟩), ResolveResult.err⟩,
          ⟨FetchResult.page (List.replicate 100 ⟨1, 5, none, "x"⟩), ResolveResult.err⟩]
          ++ ⟨FetchResult.page (List.replicate 40 ⟨1, 5, none, "x"⟩), ResolveResult.err⟩ :: [])
        0 []).fetchCount = 2 + 1
      ∧ (get_chat_history 0 10
        ([⟨FetchResult.page (List.replicate 100 ⟨1, 5, none, "x"⟩), ResolveResult.err⟩,
          ⟨FetchResult.page (List.replicate 100 ⟨1, 5, none, "x"⟩), ResolveResult.err⟩]
          ++ ⟨FetchResult.page (List.replicate 40 ⟨1, 5, none, "x"⟩), ResolveResult.err⟩ :: [])
        0 []).finished = true)
    ∧ (get_chat_history 0 10 [⟨FetchResult.fetchError, ResolveResult.err⟩] 0 []).fetchCount
        ≤ total_fetched (get_chat_history 0 10 [⟨FetchResult.fetchError, ResolveResult.err⟩] 0 []) / 100 + 1 := by
  have happ := c7_pagination_stops 0 10
    [⟨FetchResult.page (List.replicate 100 ⟨1, 5, none, "x"⟩), ResolveResult.err⟩,
     ⟨FetchResult.page (List.replicate 100 ⟨1, 5, none, "x"⟩), ResolveResult.err⟩]
    ⟨FetchResult.page (List.replicate 40 ⟨1, 5, none, "x"⟩), ResolveResult.err⟩ [] 0 []
    (by
      intro x hx
      rcases List.mem_cons.mp hx with h | h
      · subst h; exact ⟨_, rfl, by simp⟩
      · rw [List.mem_singleton] at h
        subst h; exact ⟨_, rfl, by simp⟩)
    (Or.inr ⟨_, rfl, by simp⟩)
  exact ⟨happ.1, happ.2 [⟨FetchResult.fetchError, ResolveResult.err⟩] 0 []⟩

theorem lookup_append_isSome (l1 l2 : List (Nat × SenderInfo)) (i : Nat)
    (h : (l1.lookup i).isSome = true) : ((l1 ++ l2).lookup i).isSome = true := by
  induction l1 with
  | nil => simp [List.lookup] at h
  | cons p rest ih =>
    obtain ⟨a, b⟩ := p
    cases hba : (i == a) with
    | true => simp [List.lookup, hba]
    | false =>
      simp only [List.lookup, hba] at h
      simp only [List.cons_append, List.lookup, hba]
      exact ih h

theorem lookup_append_isSome_right (l1 l2 : List (Nat × SenderInfo)) (i : Nat)
    (h : (l2.lookup i).isSome = true) : ((l1 ++ l2).lookup i).isSome = true := by
  induction l1 with
  | nil => simpa using h
  | cons p rest ih =>
    obtain ⟨a, b⟩ := p
    cases hba : (i == a) with
    | true => simp [List.lookup, hba]
    | false =>
      simp only [List.cons_append, List.lookup, hba]
      exact ih

theorem lookup_map_isSome (ids : List Nat) (attrs : Nat → SenderInfo) (i : Nat)
    (h : i ∈ ids) : ((ids.map (fun j => (j, attrs j))).lookup i).isSome = true := by
  induction ids with
  | nil => cases h
  | cons a rest ih =>
    cases hba : (i == a) with
    | true => simp [List.lookup, hba]
    | false =>
      have hrest : i ∈ rest := by
        rcases List.mem_cons.mp h with h1 | h1
        · rw [h1] at hba; simp at hba
        · exact h1
      simp only [List.map_cons, List.lookup, hba]
      exact ih hrest

theorem mem_ids_not_cached (batch : List RawMsg) (cache : List (Nat × SenderInfo)) (i : Nat)
    (h : i ∈ sender_ids_to_resolve batch cache) : (cache.lookup i).isNone = true := by
  have h1 := List.mem_dedup.mp h
  exact (List.mem_filter.mp h1).2

theorem resolve_step_cache_isSome (cache : List (Nat × SenderInfo)) (ids : List Nat)
    (r : ResolveResult) (i : Nat) (hi : (cache.lookup i).isSome = true) :
    (((resolve_step cache ids r).1).lookup i).isSome = true := by
  unfold resolve_step
  split
  · exact hi
  · cases r with
    | ok attrs => exact lookup_append_isSome _ _ _ hi
    | err => exact hi

theorem resolve_step_batch_ids (cache : List (Nat × SenderInfo)) (ids : List Nat)
    (r : ResolveResult) (b : List Nat × Bool)
    (hb : b ∈ (resolve_step cache ids r).2) : b.1 = ids := by
  unfold resolve_step at hb
  split at hb
  · cases hb
  · cases r with
    | ok attrs => rw [List.mem_singleton] at hb; subst hb; rfl
    | err => rw [List.mem_singleton] at hb; subst hb; rfl

theorem resolve_step_ok_isSome (cache : List (Nat × SenderInfo)) (ids : List Nat)
    (attrs : Nat → SenderInfo) (i : Nat) (hi : i ∈ ids) :
    (((resolve_step cache ids (ResolveResult.ok attrs)).1).lookup i).isSome = true := by
  have hne : ids.isEmpty = false := by
    cases ids with
    | nil => cases hi
    | cons a l => rfl
  unfold resolve_step
  rw [if_neg (by simp [hne])]
  exact lookup_append_isSome_right _ _ _ (lookup_map_isSome ids attrs i hi)

theorem count_le_length (i : Nat) (bs : List (List Nat × Bool)) :
    count_successful_batches i bs ≤ bs.length :=
  List.length_filter_le _ _

theorem count_eq_zero_of (i : Nat) (bs : List (List Nat × Bool))
    (h : ∀ b ∈ bs, i ∉ b.1) : count_successful_batches i bs = 0 := by
  unfold count_successful_batches
  rw [List.filter_eq_nil_iff.mpr]
  · rfl
  · intro b hb
    simp [h b hb]

theorem count_append (i : Nat) (b1 b2 : List (List Nat × Bool)) :
    count_successful_batches i (b1 ++ b2)
      = count_successful_batches i b1 + count_successful_batches i b2 := by
  unfold count_successful_batches
  rw [List.filter_append, List.length_append]

theorem batches_avoid_cache (startT endT : Nat) (envs : List StepEnv) :
    ∀ (off : Nat) (cache : List (Nat × SenderInfo)) (i : Nat),
      (cache.lookup i).isSome = true →
      ∀ b ∈ (get_chat_history startT endT envs off cache).batches, i ∉ b.1 := by
  induction envs with
  | nil =>
    intro off cache i hi b hb
    rw [gch_nil] at hb; cases hb
  | cons env rest ih =>
    intro off cache i hi b hb
    obtain ⟨f, r⟩ := env
    cases f with
    | fetchError => rw [gch_err] at hb; cases hb
    | page msgs =>
      rcases eq_or_ne msgs [] with hm | hm
      · subst hm; rw [gch_page_empty] at hb; cases hb
      · have hnotin : i ∉ sender_ids_to_resolve (msgs.filter (in_window startT endT)) cache := by
          intro hmem
          have hn := mem_ids_not_cached _ _ _ hmem
          rw [Option.isNone_iff_eq_none] at hn
          rw [hn] at hi
          simp at hi
        have hstep : ∀ b2 ∈ (resolve_step cache
            (sender_ids_to_resolve (msgs.filter (in_window startT endT)) cache) r).2,
            i ∉ b2.1 := by
          intro b2 hb2
          rw [resolve_step_batch_ids _ _ _ _ hb2]
          exact hnotin
        by_cases hlen : msgs.length < 100
        · rw [gch_page_stop startT endT off cache msgs r rest hm hlen] at hb
          exact hstep b hb
        · have hlen' : 100 ≤ msgs.length := by omega
          rw [gch_page_full startT endT off cache msgs r rest hlen'] at hb
          rcases List.mem_append.mp hb with h1 | h1
          · exact hstep b h1
          · exact ih _ _ i (resolve_step_cache_isSome _ _ _ _ hi) b h1

theorem count_successful_le_one (startT endT : Nat) (envs : List StepEnv) :
    ∀ (off : Nat) (cache : List (Nat × SenderInfo)) (i : Nat),
      count_successful_batches i (get_chat_history startT endT envs off cache).batches ≤ 1 := by
  induction envs with
  | nil =>
    intro off cache i
    rw [gch_nil]
    simp [count_successful_batches]
  | cons env rest ih =>
    intro off cache i
    obtain ⟨f, r⟩ := env
    cases f with
    | fetchError =>
      rw [gch_err]
      simp [count_successful_batches]
    | page msgs =>
      rcases eq_or_ne msgs [] with hm | hm
      · subst hm
        rw [gch_page_empty]
        simp [count_successful_batches]
      · by_cases hlen : msgs.length < 100
        · have hb2 : (get_chat_history startT endT (⟨FetchResult.page msgs, r⟩ :: rest) off cache).batches
              = (resolve_step cache
                  (sender_ids_to_resolve (msgs.filter (in_window startT endT)) cache) r).2 := by
            rw [gch_page_stop startT endT off cache msgs r rest hm hlen]
          rw [hb2]
          exact le_trans (count_le_length _ _) (resolve_step_batches_len _ _ _)
        · have hlen' : 100 ≤ msgs.length := by omega
          have hb2 : (get_chat_history startT endT (⟨FetchResult.page msgs, r⟩ :: rest) off cache).batches
              = (resolve_step cache
                  (sender_ids_to_resolve (msgs.filter (in_window startT endT)) cache) r).2
                ++ (get_chat_history startT endT rest ((msgs.getLast?.map RawMsg.id).getD 0)
                  (resolve_step cache
                    (sender_ids_to_resolve (msgs.filter (in_window startT endT)) cache) r).1).batches := by
            rw [gch_page_full startT endT off cache msgs r rest hlen']
          rw [hb2, count_append]
          cases r with
          | err =>
            have h1 : count_successful_batches i (resolve_step cache
                (sender_ids_to_resolve (msgs.filter (in_window startT endT)) cache)
                ResolveResult.err).2 = 0 := by
              unfold resolve_step
              split
              · rfl
              · simp [count_successful_batches]
            rw [h1]
            simpa using ih _ _ i
          | ok attrs =>
            by_cases hii : i ∈ sender_ids_to_resolve (msgs.filter (in_window startT endT)) cache
            · have h1 : count_successful_batches i (resolve_step cache
                  (sender_ids_to_resolve (msgs.filter (in_window startT endT)) cache)
                  (ResolveResult.ok attrs)).2 ≤ 1 :=
                le_trans (count_le_length _ _) (resolve_step_batches_len _ _ _)
              have h0 : count_successful_batches i
                  (get_chat_history startT endT rest ((msgs.getLast?.map RawMsg.id).getD 0)
                    (resolve_step cache
                      (sender_ids_to_resolve (msgs.filter (in_window startT endT)) cache)
                      (ResolveResult.ok attrs)).1).batches = 0 :=
                count_eq_zero_of _ _
                  (batches_avoid_cache startT endT rest _ _ i
                    (resolve_step_ok_isSome _ _ attrs i hii))
              omega
            · have h1 : count_successful_batches i (resolve_step cache
                  (sender_ids_to_resolve (msgs.filter (in_window startT endT)) cache)
                  (ResolveResult.ok attrs)).2 = 0 := by
                unfold resolve_step
                split
                · rfl
                · simp [count_successful_batches, hii]
              rw [h1]
              simpa using ih _ _ i

theorem batches_all_nodup (startT endT : Nat) (envs : List StepEnv) :
    ∀ (off : Nat) (cache : List (Nat × SenderInfo)),
      ∀ b ∈ (get_chat_history startT endT envs off cache).batches, b.1.Nodup := by
  induction envs with
  | nil =>
    intro off cache b hb
    rw [gch_nil] at hb; cases hb
  | cons env rest ih =>
    intro off cache b hb
    obtain ⟨f, r⟩ := env
    cases f with
    | fetchError => rw [gch_err] at hb; cases hb
    | page msgs =>
      rcases eq_or_ne msgs [] with hm | hm
      · subst hm; rw [gch_page_empty] at hb; cases hb
      · have hstep : ∀ b2 ∈ (resolve_step cache
            (sender_ids_to_resolve (msgs.filter (in_window startT endT)) cache) r).2,
            (b2.1 : List Nat).Nodup := by
          intro b2 hb2
          rw [resolve_step_batch_ids _ _ _ _ hb2]
          exact List.nodup_dedup _
        by_cases hlen : msgs.length < 100
        · rw [gch_page_stop startT endT off cache msgs r rest hm hlen] at hb
          exact hstep b hb
        · have hlen' : 100 ≤ msgs.length := by omega
          rw [gch_page_full startT endT off cache msgs r rest hlen'] at hb
          rcases List.mem_append.mp hb with h1 | h1
          · exact hstep b h1
          · exact ih _ _ b h1

theorem batches_le_fetches (startT endT : Nat) (envs : List StepEnv) :
    ∀ (off : Nat) (cache : List (Nat × SenderInfo)),
      (get_chat_history startT endT envs off cache).batches.length
        ≤ (get_chat_history startT endT envs off cache).fetchCount := by
  induction envs with
  | nil => intro off cache; rw [gch_nil]; simp
  | cons env rest ih =>
    intro off cache
    obtain ⟨f, r⟩ := env
    cases f with
    | fetchError => rw [gch_err]; simp
    | page msgs =>
      rcases eq_or_ne msgs [] with hm | hm
      · subst hm; rw [gch_page_empty]; simp
      · by_cases hlen : msgs.length < 100
        · rw [gch_page_stop startT endT off cache msgs r rest hm hlen]
          have := resolve_step_batches_len cache
            (sender_ids_to_resolve (msgs.filter (in_window startT endT)) cache) r
          simpa using this
        · have hlen' : 100 ≤ msgs.length := by omega
          rw [gch_page_full startT endT off cache msgs r rest hlen']
          have h1 := resolve_step_batches_len cache
            (sender_ids_to_resolve (msgs.filter (in_window startT endT)) cache) r
          have h2 := ih ((msgs.getLast?.map RawMsg.id).getD 0)
            (resolve_step cache
              (sender_ids_to_resolve (msgs.filter (in_window startT endT)) cache) r).1
          simp only [List.length_append]
          omega

/-- C9: sender resolution is a single batched call per page over the set of
distinct identifiers not already cached — every requested batch is
duplicate-free, each identifier belongs to at most one successful batch per
run (once resolved it is cached and never requested again), and the number
of resolution calls never exceeds the number of fetched pages — and a
resolution failure is non-fatal: the page's messages are still emitted with
null sender attributes. -/
theorem c9_batched_sender_resolution :
    (∀ (startT endT : Nat) (envs : List StepEnv) (off : Nat)
        (cache : List (Nat × SenderInfo)),
        (∀ b ∈ (get_chat_history startT endT envs off cache).batches, (b.1 : List Nat).Nodup)
      ∧ (∀ i, count_successful_batches i
            (get_chat_history startT endT envs off cache).batches ≤ 1)
      ∧ (get_chat_history startT endT envs off cache).batches.length
          ≤ (get_chat_history startT endT envs off cache).fetchCount)
    ∧ (∀ (startT endT : Nat) (msgs : List RawMsg) (rest : List StepEnv) (off : Nat),
        ((get_chat_history startT endT
            (⟨FetchResult.page msgs, ResolveResult.err⟩ :: rest) off []).data).take
            (msgs.filter (in_window startT endT)).length
          = (msgs.filter (in_window startT endT)).map
              (fun m => (⟨none, none, none, m.date, m.text⟩ : MsgData))) := by
  constructor
  · intro startT endT envs off cache
    exact ⟨batches_all_nodup startT endT envs off cache,
      fun i => count_successful_le_one startT endT envs off cache i,
      batches_le_fetches startT endT envs off cache⟩
  · intro startT endT msgs rest off
    have hfun : attach_sender [] = fun m : RawMsg => (⟨none, none, none, m.date, m.text⟩ : MsgData) :=
      funext attach_sender_nil
    have hcache : (resolve_step []
        (sender_ids_to_resolve (msgs.filter (in_window startT endT)) []) ResolveResult.err).1
        = ([] : List (Nat × SenderInfo)) := resolve_step_err_cache _ _
    rcases eq_or_ne msgs [] with hm | hm
    · subst hm
      rw [gch_page_empty]
      simp
    · by_cases hlen : msgs.length < 100
      · have hdata : (get_chat_history startT endT
            (⟨FetchResult.page msgs, ResolveResult.err⟩ :: rest) off []).data
            = (msgs.filter (in_window startT endT)).map
              (attach_sender (resolve_step []
                (sender_ids_to_resolve (msgs.filter (in_window startT endT)) [])
                ResolveResult.err).1) := by
          rw [gch_page_stop startT endT off [] msgs ResolveResult.err rest hm hlen]
        rw [hdata, hcache, hfun]
        rw [show (msgs.filter (in_window startT endT)).length
            = ((msgs.filter (in_window startT endT)).map
                (fun m : RawMsg => (⟨none, none, none, m.date, m.text⟩ : MsgData))).length
          from (List.length_map _ _).symm]
        exact List.take_length _
      · have hlen' : 100 ≤ msgs.length := by omega
        have hdata : (get_chat_history startT endT
            (⟨FetchResult.page msgs, ResolveResult.err⟩ :: rest) off []).data
            = (msgs.filter (in_window startT endT)).map
              (attach_sender (resolve_step []
                (sender_ids_to_resolve (msgs.filter (in_window startT endT)) [])
                ResolveResult.err).1)
              ++ (get_chat_history startT endT rest ((msgs.getLast?.map RawMsg.id).getD 0)
                (resolve_step []
                  (sender_ids_to_resolve (msgs.filter (in_window startT endT)) [])
                  ResolveResult.err).1).data := by
          rw [gch_page_full startT endT off [] msgs ResolveResult.err rest hlen']
        rw [hdata, hcache, hfun]
        exact List.take_left' (List.length_map _ _)

/-- Witness for C9 at a page whose two messages share sender id 7 (one
successful batched resolution) and at a failing resolution that still
emits the message with null attributes. -/
theorem c9_batched_sender_resolution_witness :
    (([7] : List Nat)).Nodup
    ∧ count_successful_batches 7
        (get_chat_history 0 10
          [⟨FetchResult.page [⟨1, 5, some 7, "a"⟩, ⟨2, 6, some 7, "b"⟩],
            ResolveResult.ok (fun _ => ⟨some "u", some "f", some "l"⟩)⟩] 0 []).batches ≤ 1
    ∧ (get_chat_history 0 10
          [⟨FetchResult.page [⟨1, 5, some 7, "a"⟩, ⟨2, 6, some 7, "b"⟩],
            ResolveResult.ok (fun _ => ⟨some "u", some "f", some "l"⟩)⟩] 0 []).batches.length
        ≤ (get_chat_history 0 10
          [⟨FetchResult.page [⟨1, 5, some 7, "a"⟩, ⟨2, 6, some 7, "b"⟩],
            ResolveResult.ok (fun _ => ⟨some "u", some "f", some "l"⟩)⟩] 0 []).fetchCount
    ∧ ((get_chat_history 0 10
          [⟨FetchResult.page [⟨1, 5, some 7, "a"⟩], ResolveResult.err⟩] 0 []).data).take
          (([⟨1, 5, some 7, "a"⟩] : List RawMsg).filter (in_window 0 10)).length
        = (([⟨1, 5, some 7, "a"⟩] : List RawMsg).filter (in_window 0 10)).map
            (fun m => (⟨none, none, none, m.date, m.text⟩ : MsgData)) :=
  ⟨(c9_batched_sender_resolution.1 0 10
      [⟨FetchResult.page [⟨1, 5, some 7, "a"⟩, ⟨2, 6, some 7, "b"⟩],
        ResolveResult.ok (fun _ => ⟨some "u", some "f", some "l"⟩)⟩] 0 []).1
      (([7], true)) (by decide),
   (c9_batched_sender_resolution.1 0 10
      [⟨FetchResult.page [⟨1, 5, some 7, "a"⟩, ⟨2, 6, some 7, "b"⟩],
        ResolveResult.ok (fun _ => ⟨some "u", some "f", some "l"⟩)⟩] 0 []).2.1 7,
   (c9_batched_sender_resolution.1 0 10
      [⟨FetchResult.page [⟨1, 5, some 7, "a"⟩, ⟨2, 6, some 7, "b"⟩],
        ResolveResult.ok (fun _ => ⟨some "u", some "f", some "l"⟩)⟩] 0 []).2.2,
   c9_batched_sender_resolution.2 0 10 [⟨1, 5, some 7, "a"⟩] [] 0⟩

end TgSummary
